import Mathlib

/-!
Verification of `src/ml_model/lenny_fall_run_all_workbook.py`: a shallow
embedding of its band augmentation (`modify_tif`), pixelwise inference
(`predict`), output-path construction (`add_suffix_to_filename_at_tif_path`)
and per-item session bookkeeping (the main loop), together with theorems
settling the specification claims about them.
-/

/-- Pixel values of a raster band: either a finite numeric value or one of the
IEEE non-finite values (NaN, +infinity, -infinity), which `np.isfinite`
rejects.  Floating-point arithmetic itself is never performed by the code
under verification (values are only copied, tested for finiteness, and
replaced), so finite values are carried as rationals. -/
inductive FVal where
  | finite (q : ℚ)
  | nan
  | inf
  | ninf
deriving DecidableEq

/-- Embedding of `np.isfinite` on a single value. -/
def FVal.isFinite : FVal → Bool
  | .finite _ => true
  | _ => false

/-- One raster band: a 2-D grid of values indexed by (row, col). -/
abbrev Band := Nat → Nat → FVal

/-- Embedding of `np.full_like(raster_data[0], c)`: a band holding `c`
everywhere. -/
def constBand (v : FVal) : Band := fun _ _ => v

/-- A multi-band raster as read by `rasterio` (`src.read()` gives a
bands × rows × cols array): `data b` is the 0-based band `b`. -/
structure Raster where
  nbands : Nat
  rows : Nat
  cols : Nat
  data : Nat → Band

/-- Modelled from the spec: `model_data.NAN_SUBSTITUTE_CONSANT`, the shared
sentinel constant imported from the `model_data` module, which is not among
this repository's source files.  The spec (§4.1, §4.2, glossary) fixes it to
be a single finite scalar placeholder; its numeric value is unspecified, so
it is modelled as 0. -/
def NAN_SUBSTITUTE_CONSANT : ℚ := 0

/-- A raster dataset opened for writing with
`rasterio.open(modified_tif, 'w', **profile)` after
`profile.update(count=12)` (line 95): the declared band count together with
the bands written so far, keyed by the 1-based band index used in
`dst.write(band, indexes=i)`. -/
structure Dst where
  count : Nat
  rows : Nat
  cols : Nat
  written : Nat → Option Band

/-- Embedding of `dst.write(band, indexes=i)`: rasterio raises an
`IndexError` when the band index lies outside `1..count`. -/
def Dst.write (d : Dst) (b : Band) (i : Nat) : Except String Dst :=
  if 1 ≤ i then
    if i ≤ d.count then
      .ok { d with written := fun j => if j = i then some b else d.written j }
    else
      .error "band index out of range"
  else
    .error "band index out of range"

/-- A `for i in range(lo, lo + n)` loop of `dst.write(f i, indexes=i)` calls,
as in lines 108-109 and 112-115. -/
def writeRange : Dst → Nat → Nat → (Nat → Band) → Except String Dst
  | d, _, 0, _ => .ok d
  | d, lo, n+1, f =>
      Except.bind (Dst.write d (f lo) lo) (fun d2 => writeRange d2 (lo + 1) n f)

/-- Embedding of `tags["satellite"]` (line 85): a missing key raises
`KeyError`. -/
def getTag (tags : String → Option String) (k : String) : Except String String :=
  match tags k with
  | some v => .ok v
  | none => .error ("KeyError: " ++ k)

/-- Embedding of Python's `s.startswith(pre)`. -/
def str_startswith (s pre : String) : Bool :=
  pre.data.isPrefixOf s.data

/-- Lines 99-104: the satellite-family dispatch.  A `"sentinel"`-prefixed tag
selects 0 back-fill bands, a `"landsat"`-prefixed tag selects `9 - 5 = 4`,
and anything else raises. -/
def checkSatellite (satellite : String) : Except String Nat :=
  if str_startswith satellite "sentinel" then .ok 0
  else if str_startswith satellite "landsat" then .ok (9 - 5)
  else .error ("Satellite \"" ++ satellite ++ "\" predictions not implemented yet.")

/-- Line 111: `bands_to_fill = 9 - 5`, re-assigned unconditionally inside the
write block, discarding the value chosen by the dispatch on lines 99-104. -/
def bands_to_fill_clobbered : Nat := 9 - 5

/-- The fresh output dataset of `modify_tif`: `profile.update(count=12)`
(line 95) followed by opening the modified path for writing (line 106);
no band has been written yet. -/
def dst0 (src : Raster) : Dst := ⟨12, src.rows, src.cols, fun _ => none⟩

/-- Embedding of `modify_tif` (lines 78-126).  In source order: read the
satellite tag, run the family dispatch (whose result is discarded, mirroring
line 111's re-assignment), write the original bands at indexes
`1..nbands`, write `bands_to_fill` sentinel bands at the following indexes,
then write the three constant bands (area, percent-developed,
percent-agricultural) at the next three indexes. -/
def modify_tif (src : Raster) (tags : String → Option String) (sa pd pa : ℚ) :
    Except String Dst :=
  Except.bind (getTag tags "satellite") (fun satellite =>
  Except.bind (checkSatellite satellite) (fun _bands_to_fill =>
  Except.bind (writeRange (dst0 src) 1 src.nbands (fun i => src.data (i - 1))) (fun dst1 =>
  Except.bind (writeRange dst1 (src.nbands + 1) bands_to_fill_clobbered
      (fun _ => constBand (FVal.finite NAN_SUBSTITUTE_CONSANT))) (fun dst2 =>
  Except.bind (Dst.write dst2 (constBand (FVal.finite sa))
      (src.nbands + bands_to_fill_clobbered + 1)) (fun dst3 =>
  Except.bind (Dst.write dst3 (constBand (FVal.finite pd))
      (src.nbands + bands_to_fill_clobbered + 2)) (fun dst4 =>
  Dst.write dst4 (constBand (FVal.finite pa))
      (src.nbands + bands_to_fill_clobbered + 3)))))))

/-- Reopening the written file for `predict` (`src.read()` on the modified
tif, lines 131-132): 0-based band `b` of the resulting array is the band
written at 1-based index `b + 1`. -/
def dstToRaster (d : Dst) : Raster :=
  ⟨d.count, d.rows, d.cols, fun b => (d.written (b + 1)).getD (constBand FVal.nan)⟩

/-- Whether the 1-based band indexes `1..n` have all been written. -/
def writtenUpTo (d : Dst) (n : Nat) : Bool :=
  (List.range n).all (fun j => (d.written (j + 1)).isSome)

/-- A 9-band "canonical" sentinel-family source raster on a 4 × 4 grid. -/
def nineBandRaster : Raster :=
  ⟨9, 4, 4, fun b => fun r c => FVal.finite ((b : ℚ) * 100 + (r : ℚ) * 10 + (c : ℚ))⟩

/-- Tag dictionary of a sentinel-family raster. -/
def sentinelTags : String → Option String :=
  fun k => if k = "satellite" then some "sentinel-2" else none

/-- A 5-band "reduced" landsat-family source raster on a 4 × 4 grid. -/
def fiveBandRaster : Raster :=
  ⟨5, 4, 4, fun b => fun r c => FVal.finite ((b : ℚ) * 100 + (r : ℚ) * 10 + (c : ℚ))⟩

/-- Tag dictionary of a landsat-family raster. -/
def landsatTags : String → Option String :=
  fun k => if k = "satellite" then some "landsat-8" else none

/-- The dataset `modify_tif` produces for the landsat example. -/
def dL : Dst :=
  (modify_tif fiveBandRaster landsatTags (2.5 : ℚ) 10 30).toOption.getD (dst0 fiveBandRaster)

/-- Line 137: `raster_data.transpose(1, 2, 0).reshape((n_samples, n_bands))`.
Sample `s` is pixel (row `s / cols`, col `s % cols`); the feature axis is the
band index. -/
def raster_data_2d (r : Raster) : Nat → Nat → FVal :=
  fun s b => r.data b (s / r.cols) (s % r.cols)

/-- Line 139: `~np.isfinite(raster_data[0])`, the no-data mask taken from the
first band of the raster `predict` reads. -/
def non_finite_val_mask (r : Raster) : Nat → Nat → Bool :=
  fun rr cc => !(r.data 0 rr cc).isFinite

/-- Line 141, applied to one entry:
`raster_data_2d[~np.isfinite(raster_data_2d)] = model_data.NAN_SUBSTITUTE_CONSANT`. -/
def sanitizeVal (v : FVal) : FVal :=
  if v.isFinite then v else FVal.finite NAN_SUBSTITUTE_CONSANT

/-- The sample matrix after line 141's in-place substitution: every non-finite
entry replaced by the sentinel. -/
def raster_data_2d_sanitized (r : Raster) : Nat → Nat → FVal :=
  fun s b => sanitizeVal (raster_data_2d r s b)

/-- Line 144: `predictions = andrew_model.predict(raster_data_2d)`.  The
external estimator is an arbitrary function from one feature row to one
value, applied to every sample of the sanitized matrix. -/
def predictions (r : Raster) (model : (Nat → FVal) → FVal) : Nat → FVal :=
  fun s => model (fun b => raster_data_2d_sanitized r s b)

/-- Line 158: `predictions.reshape(n_rows, n_cols)`. -/
def predictions_raster (r : Raster) (model : (Nat → FVal) → FVal) : Band :=
  fun rr cc => predictions r model (rr * r.cols + cc)

/-- Line 160: `predictions_raster[non_finite_val_mask] = np.nan` — the
prediction raster that `predict` writes out and returns. -/
def predictions_raster_masked (r : Raster) (model : (Nat → FVal) → FVal) : Band :=
  fun rr cc =>
    if non_finite_val_mask r rr cc then FVal.nan else predictions_raster r model rr cc

/-- Embedding of Python's `filename.split(sep)` for a one-character
separator, on the character list of the string. -/
def splitOnSep (sep : Char) : List Char → List (List Char)
  | [] => [[]]
  | a :: rest =>
      match splitOnSep sep rest with
      | [] => [[]]
      | g :: gs => if a = sep then [] :: g :: gs else (a :: g) :: gs

/-- Python's `filename.split(sep)` returning strings. -/
def py_split (s : String) (sep : Char) : List String :=
  (splitOnSep sep s.data).map (fun l => String.mk l)

/-- Python's `os.path.basename(p)`: the part after the last slash. -/
def basename (p : String) : String :=
  (py_split p '/').getLastD p

/-- Python's `os.path.join(folder, name)` for a folder with no trailing
slash. -/
def joinPath (folder name : String) : String :=
  folder ++ "/" ++ name

/-- Lines 69-75: `add_suffix_to_filename_at_tif_path`.  Split the filename on
dots, insert `_suffix` after the first segment, rejoin the remaining
segments, and place the basename of the result inside the output tif
folder. -/
def add_suffix_to_filename_at_tif_path (tif_out_folder filename suffix : String) : String :=
  let parts := py_split filename '.'
  let newfilename :=
    parts.headD "" ++ "_" ++ suffix ++ "." ++ String.intercalate "." parts.tail
  joinPath tif_out_folder (basename newfilename)

/-- Line 98: the path `modify_tif` writes the augmented raster to. -/
def modified_tif_path (tif_out_folder input_tif : String) : String :=
  add_suffix_to_filename_at_tif_path tif_out_folder input_tif "modified"

/-- Line 130: the path `predict` opens to read the augmented raster back. -/
def predict_opened_path (tif_out_folder input_tif : String) : String :=
  add_suffix_to_filename_at_tif_path tif_out_folder input_tif "modified"

/-- The session bookkeeping of one run: the success log file
(`successes_<session>.status.txt`, one appended line per completed item,
lines 281-282) and the in-memory `error_paths` list (line 66, appended in
the `except` branch on line 287 and dumped as JSON on lines 292-293). -/
structure SessionState where
  successes : List String
  error_paths : List String
deriving DecidableEq

/-- Is an item outcome the `except` branch? -/
def isErr {ε α : Type} : Except ε α → Bool
  | .error _ => true
  | .ok _ => false

/-- One iteration of the main loop (lines 244-287): the whole `try` body is
abstracted as a fallible computation `f` on the item's path; on success the
path is appended to the success log, on any exception it is appended to
`error_paths` and the loop moves on. -/
def processItem (f : String → Except String Unit) (st : SessionState) (p : String) :
    SessionState :=
  match f p with
  | .ok _ => { st with successes := st.successes ++ [p] }
  | .error _ => { st with error_paths := st.error_paths ++ [p] }

/-- The whole main loop over the input path list, starting from the empty
session state of a fresh run. -/
def runAll (f : String → Except String Unit) (paths : List String) : SessionState :=
  List.foldl (processItem f) ⟨[], []⟩ paths

/-- Line 289: `print(f"Successfully finished {len(paths)} uploads with
{len(error_paths)} errors")` — the two counts the final report states. -/
def report (paths : List String) (st : SessionState) : Nat × Nat :=
  (paths.length, st.error_paths.length)

/-- The `try`-body predicate of items that fail. -/
def errPred (f : String → Except String Unit) : String → Bool :=
  fun p => isErr (f p)

/-- The `try`-body predicate of items that succeed. -/
def okPred (f : String → Except String Unit) : String → Bool :=
  fun p => !(isErr (f p))

/-- A 5-band landsat-family raster on a 2 × 2 grid whose first band holds
NaN at pixel (0, 0). -/
def maskedRaster5 : Raster :=
  ⟨5, 2, 2, fun b r c =>
    if b = 0 ∧ r = 0 ∧ c = 0 then FVal.nan else FVal.finite ((b : ℚ) + 1)⟩

/-- The dataset `modify_tif` produces for `maskedRaster5`. -/
def d3 : Dst :=
  (modify_tif maskedRaster5 landsatTags (2.5 : ℚ) 10 30).toOption.getD (dst0 maskedRaster5)

/-- An adversarial estimator that returns the finite value 7 for every
sample, including masked ones. -/
def constModel : (Nat → FVal) → FVal := fun _ => FVal.finite 7

/-- A 3-band raster on a 2 × 4 grid with pairwise distinct values. -/
def smallRaster : Raster :=
  ⟨3, 2, 4, fun b r c => FVal.finite ((b : ℚ) * 100 + (r : ℚ) * 10 + (c : ℚ))⟩

/-- An estimator that projects the second feature of a sample. -/
def pickModel : (Nat → FVal) → FVal := fun v => v 1

/-- Five input paths for the session scenario. -/
def paths5 : List String := ["a.tif", "b.tif", "c.tif", "d.tif", "e.tif"]

/-- An item processor that fails on exactly one of the five paths. -/
def failOnC : String → Except String Unit :=
  fun p => if p = "c.tif" then .error "boom" else .ok ()

/-- Tag dictionary of a raster from an unrecognized sensor family. -/
def modisTags : String → Option String :=
  fun k => if k = "satellite" then some "modis" else none

/-- Claim C1: for a 9-band canonical-family ("sentinel") source raster of
4 × 4 spatial shape with augmentation constants (2.5, 10.0, 30.0), the claim
expects `modify_tif` to produce a 12-band raster with bands 1-9 unchanged,
zero back-filled sentinel bands, and bands 10-12 uniformly 2.5, 10.0, 30.0.
The code instead fails: line 111 resets the back-fill count to 4, so the
sentinel back-fill loop writes at indexes 10-13 and the write at index 13
exceeds the declared 12-band count, raising an error. -/
theorem claim_C1_nine_band_sentinel_fails :
    modify_tif nineBandRaster sentinelTags (2.5 : ℚ) 10 30 =
      .error "band index out of range" := rfl

/-- Claim C2: the claim states that every recognized-family raster augments
to exactly 12 bands regardless of native band count.  The landsat (5-band)
example does produce a dataset with declared count 12 and all 12 band slots
written, but the sentinel (9-band) example makes `modify_tif` raise instead
of producing a raster, so the guarantee is not independent of the native
band count. -/
theorem claim_C2_twelve_bands_not_band_count_independent :
    (modify_tif fiveBandRaster landsatTags (2.5 : ℚ) 10 30 = .ok dL ∧
      dL.count = 12 ∧ writtenUpTo dL 12 = true) ∧
    modify_tif nineBandRaster sentinelTags (2.5 : ℚ) 10 30 =
      .error "band index out of range" :=
  ⟨⟨rfl, rfl, by decide⟩, rfl⟩

/-- Inversion of a successful `Except.bind`. -/
lemma except_bind_ok {ε α β : Type} {x : Except ε α} {g : α → Except ε β} {b : β}
    (h : Except.bind x g = .ok b) : ∃ a, x = .ok a ∧ g a = .ok b := by
  cases x with
  | error e => exact Except.noConfusion h
  | ok a => exact ⟨a, rfl, h⟩

/-- A successful `dst.write` keeps the profile and updates exactly one band
slot. -/
lemma write_ok_eq {d : Dst} {b : Band} {i : Nat} {d2 : Dst}
    (h : Dst.write d b i = .ok d2) :
    d2.count = d.count ∧ d2.rows = d.rows ∧ d2.cols = d.cols ∧
      d2.written = fun j => if j = i then some b else d.written j := by
  unfold Dst.write at h
  split at h
  · split at h
    · cases h
      exact ⟨rfl, rfl, rfl, rfl⟩
    · exact Except.noConfusion h
  · exact Except.noConfusion h

/-- A successful write loop leaves band slots below its start untouched. -/
lemma writeRange_ok_below :
    ∀ {n : Nat} {d : Dst} {lo : Nat} {f : Nat → Band} {d2 : Dst},
      writeRange d lo n f = .ok d2 → ∀ j, j < lo → d2.written j = d.written j := by
  intro n
  induction n with
  | zero =>
    intro d lo f d2 h j hj
    cases h
    rfl
  | succ n ih =>
    intro d lo f d2 h j hj
    simp only [writeRange] at h
    obtain ⟨dmid, hw, hrest⟩ := except_bind_ok h
    have h1 := ih hrest j (by omega)
    rw [h1]
    have h2 := (write_ok_eq hw).2.2.2
    rw [h2]
    exact if_neg (by omega)

/-- A successful write loop stores `f j` at every band slot it covers. -/
lemma writeRange_ok_at :
    ∀ {n : Nat} {d : Dst} {lo : Nat} {f : Nat → Band} {d2 : Dst},
      writeRange d lo n f = .ok d2 →
      ∀ j, lo ≤ j → j < lo + n → d2.written j = some (f j) := by
  intro n
  induction n with
  | zero =>
    intro d lo f d2 h j h1 h2
    omega
  | succ n ih =>
    intro d lo f d2 h j h1 h2
    simp only [writeRange] at h
    obtain ⟨dmid, hw, hrest⟩ := except_bind_ok h
    by_cases hj : j = lo
    · subst hj
      have hb := writeRange_ok_below hrest j (by omega)
      rw [hb]
      have h2w := (write_ok_eq hw).2.2.2
      simp [h2w]
    · exact ih hrest j (by omega) (by omega)

/-- When `modify_tif` succeeds, the first band slot of the augmented file
holds the source's first band unchanged (the copy loop of lines 108-109
writes it, and every later write targets a higher index). -/
lemma modify_tif_first_band {src : Raster} {tags : String → Option String}
    {sa pd pa : ℚ} {d : Dst}
    (hok : modify_tif src tags sa pd pa = .ok d) (hn : 1 ≤ src.nbands) :
    d.written 1 = some (src.data 0) := by
  unfold modify_tif at hok
  obtain ⟨sat, hsat, hok⟩ := except_bind_ok hok
  obtain ⟨btf, hbtf, hok⟩ := except_bind_ok hok
  obtain ⟨dst1, hw1, hok⟩ := except_bind_ok hok
  obtain ⟨dst2, hw2, hok⟩ := except_bind_ok hok
  obtain ⟨dst3, hw3, hok⟩ := except_bind_ok hok
  obtain ⟨dst4, hw4, hok⟩ := except_bind_ok hok
  have hbc : bands_to_fill_clobbered = 4 := rfl
  have h1 : dst1.written 1 = some (src.data 0) :=
    writeRange_ok_at hw1 1 (Nat.le_refl 1) (by omega)
  have h2 : dst2.written 1 = dst1.written 1 :=
    writeRange_ok_below hw2 1 (by omega)
  have e3 := (write_ok_eq hw3).2.2.2
  have e4 := (write_ok_eq hw4).2.2.2
  have e5 := (write_ok_eq hok).2.2.2
  simp only [e5, e4, e3]
  rw [if_neg (by omega), if_neg (by omega), if_neg (by omega), h2, h1]

/-- Filtering a list by a predicate and by its negation splits its length. -/
lemma filter_length_add {α : Type} (q : α → Bool) :
    ∀ l : List α,
      (l.filter q).length + (l.filter (fun a => !(q a))).length = l.length := by
  intro l
  induction l with
  | nil => simp
  | cons a l ih =>
    cases hq : q a <;> simp [List.filter_cons, hq] <;> omega

/-- The main loop appends exactly the succeeding paths to the success log and
exactly the failing paths to `error_paths`, in input order. -/
lemma foldl_processItem (f : String → Except String Unit) :
    ∀ (paths : List String) (st : SessionState),
      (List.foldl (processItem f) st paths).successes
          = st.successes ++ paths.filter (okPred f) ∧
      (List.foldl (processItem f) st paths).error_paths
          = st.error_paths ++ paths.filter (errPred f) := by
  intro paths
  induction paths with
  | nil => intro st; simp
  | cons p rest ih =>
    intro st
    rw [List.foldl_cons]
    obtain ⟨hs, he⟩ := ih (processItem f st p)
    cases hf : f p with
    | ok u =>
      have hp : processItem f st p = { st with successes := st.successes ++ [p] } := by
        simp [processItem, hf]
      constructor
      · rw [hs, hp]
        simp [List.filter_cons, okPred, errPred, isErr, hf]
      · rw [he, hp]
        simp [List.filter_cons, okPred, errPred, isErr, hf]
    | error e =>
      have hp : processItem f st p = { st with error_paths := st.error_paths ++ [p] } := by
        simp [processItem, hf]
      constructor
      · rw [hs, hp]
        simp [List.filter_cons, okPred, errPred, isErr, hf]
      · rw [he, hp]
        simp [List.filter_cons, okPred, errPred, isErr, hf]

/-- The success log of a fresh run holds exactly the succeeding paths. -/
lemma runAll_successes (f : String → Except String Unit) (paths : List String) :
    (runAll f paths).successes = paths.filter (okPred f) := by
  obtain ⟨hs, he⟩ := foldl_processItem f paths ⟨[], []⟩
  unfold runAll
  rw [hs]
  simp

/-- The error list of a fresh run holds exactly the failing paths. -/
lemma runAll_error_paths (f : String → Except String Unit) (paths : List String) :
    (runAll f paths).error_paths = paths.filter (errPred f) := by
  obtain ⟨hs, he⟩ := foldl_processItem f paths ⟨[], []⟩
  unfold runAll
  rw [he]
  simp

/-- Claim C3: every pixel whose original (pre-augmentation) first band is
non-finite holds NaN in the prediction raster `predict` produces, for an
arbitrary estimator — even one returning finite values on masked samples.
The link to the original raster holds because `modify_tif` copies band 1
unchanged and `predict` reads its mask from band 1 of the modified file. -/
theorem claim_C3_masked_pixels_are_nan (src : Raster) (tags : String → Option String)
    (sa pd pa : ℚ) (d : Dst) (model : (Nat → FVal) → FVal) (rr cc : Nat)
    (hn : 1 ≤ src.nbands)
    (hok : modify_tif src tags sa pd pa = .ok d)
    (hnf : (src.data 0 rr cc).isFinite = false) :
    predictions_raster_masked (dstToRaster d) model rr cc = FVal.nan := by
  have hb := modify_tif_first_band hok hn
  unfold predictions_raster_masked non_finite_val_mask dstToRaster
  simp [hb, hnf]

/-- Witness for C3 on a concrete 5-band landsat raster with NaN at pixel
(0, 0) of band 1 and an estimator that outputs the finite value 7
everywhere. -/
theorem claim_C3_witness :
    1 ≤ maskedRaster5.nbands ∧
    modify_tif maskedRaster5 landsatTags (2.5 : ℚ) 10 30 = .ok d3 ∧
    (maskedRaster5.data 0 0 0).isFinite = false ∧
    predictions_raster_masked (dstToRaster d3) constModel 0 0 = FVal.nan :=
  ⟨by decide, rfl, by decide,
    claim_C3_masked_pixels_are_nan maskedRaster5 landsatTags 2.5 10 30 d3 constModel 0 0
      (by decide) rfl (by decide)⟩

/-- Claim C7: the no-data mask `predict` uses (computed from band 1 of the
modified file) equals, pixel by pixel, the non-finite mask of the original
source raster's first band, because augmentation copies the original bands
unchanged into the leading slots. -/
theorem claim_C7_mask_equals_original_mask (src : Raster) (tags : String → Option String)
    (sa pd pa : ℚ) (d : Dst)
    (hn : 1 ≤ src.nbands)
    (hok : modify_tif src tags sa pd pa = .ok d)
    (rr cc : Nat) :
    non_finite_val_mask (dstToRaster d) rr cc = non_finite_val_mask src rr cc := by
  have hb := modify_tif_first_band hok hn
  unfold non_finite_val_mask dstToRaster
  simp [hb]

/-- Witness for C7 on the concrete landsat example. -/
theorem claim_C7_witness :
    1 ≤ fiveBandRaster.nbands ∧
    modify_tif fiveBandRaster landsatTags (2.5 : ℚ) 10 30 = .ok dL ∧
    non_finite_val_mask (dstToRaster dL) 1 1 = non_finite_val_mask fiveBandRaster 1 1 :=
  ⟨by decide, rfl,
    claim_C7_mask_equals_original_mask fiveBandRaster landsatTags 2.5 10 30 dL
      (by decide) rfl 1 1⟩

/-- Claim C6: the reshape to the sample matrix and the inverse reshape of the
prediction vector compose to the identity on pixel positions: the value the
prediction raster holds at (row, col) is the estimator's output on exactly
that pixel's feature row. -/
theorem claim_C6_reshape_round_trip (r : Raster) (model : (Nat → FVal) → FVal)
    (rr cc : Nat) (hcc : cc < r.cols) :
    predictions_raster r model rr cc = model (fun b => sanitizeVal (r.data b rr cc)) := by
  have hpos : 0 < r.cols := Nat.lt_of_le_of_lt (Nat.zero_le cc) hcc
  have hdiv : (rr * r.cols + cc) / r.cols = rr := by
    rw [Nat.add_comm, Nat.add_mul_div_right cc rr hpos, Nat.div_eq_of_lt hcc, Nat.zero_add]
  have hmod : (rr * r.cols + cc) % r.cols = cc := by
    rw [Nat.add_comm, Nat.add_mul_mod_self_right, Nat.mod_eq_of_lt hcc]
  unfold predictions_raster predictions raster_data_2d_sanitized raster_data_2d
  simp only [hdiv, hmod]

/-- Witness for C6 at pixel (1, 2) of a concrete 3-band 2 × 4 raster. -/
theorem claim_C6_witness :
    2 < smallRaster.cols ∧
    predictions_raster smallRaster pickModel 1 2
      = pickModel (fun b => sanitizeVal (smallRaster.data b 1 2)) :=
  ⟨by decide, claim_C6_reshape_round_trip smallRaster pickModel 1 2 (by decide)⟩

/-- Claim C9: every entry of the sample matrix handed to the estimator is
finite (non-finite entries were replaced by the sentinel constant before the
call), and the estimator is invoked on exactly that sanitized matrix. -/
theorem claim_C9_estimator_inputs_finite (r : Raster) (model : (Nat → FVal) → FVal)
    (s b : Nat) :
    (raster_data_2d_sanitized r s b).isFinite = true ∧
    predictions r model s = model (fun bb => raster_data_2d_sanitized r s bb) := by
  constructor
  · unfold raster_data_2d_sanitized sanitizeVal
    split
    case isTrue h => exact h
    case isFalse h => rfl
  · rfl

/-- Claim C5: once the run's final bookkeeping completes, success-log entries
plus persisted error-list entries account for every input path exactly once,
whatever mix of items succeeds or fails. -/
theorem claim_C5_ledger_invariant (f : String → Except String Unit) (paths : List String) :
    (runAll f paths).successes.length + (runAll f paths).error_paths.length
      = paths.length := by
  rw [runAll_successes, runAll_error_paths]
  have hlen := filter_length_add (errPred f) paths
  have hok : paths.filter (okPred f) = paths.filter (fun a => !(errPred f a)) := rfl
  rw [hok]
  omega

/-- Claim C4 (corrected): with five inputs of which exactly one fails, the
success log holds 4 entries and the error JSON holds 1 entry, but the final
report prints the total input count (5) alongside the error count, not the
success count 4. -/
theorem claim_C4_amended_counts (f : String → Except String Unit) (paths : List String)
    (h5 : paths.length = 5)
    (h1 : (paths.filter (errPred f)).length = 1) :
    (runAll f paths).successes.length = 4 ∧
    (runAll f paths).error_paths.length = 1 ∧
    report paths (runAll f paths) = (5, 1) := by
  have hlen := filter_length_add (errPred f) paths
  have hok : paths.filter (okPred f) = paths.filter (fun a => !(errPred f a)) := rfl
  refine ⟨?_, ?_, ?_⟩
  · rw [runAll_successes, hok]
    omega
  · rw [runAll_error_paths, h1]
  · unfold report
    rw [runAll_error_paths, h5, h1]

/-- Counterexample for C4 as stated: in the concrete five-input scenario with
one failure the success log has 4 entries and the error list 1, yet the
number the report states for the first count is 5 (the total), not 4. -/
theorem claim_C4_counterexample :
    (runAll failOnC paths5).successes.length = 4 ∧
    (runAll failOnC paths5).error_paths.length = 1 ∧
    (report paths5 (runAll failOnC paths5)).fst = 5 ∧
    ¬ (report paths5 (runAll failOnC paths5)).fst = 4 := by
  decide

/-- Witness for the amended C4 on the concrete five-input scenario. -/
theorem claim_C4_witness :
    paths5.length = 5 ∧
    (paths5.filter (errPred failOnC)).length = 1 ∧
    ((runAll failOnC paths5).successes.length = 4 ∧
      (runAll failOnC paths5).error_paths.length = 1 ∧
      report paths5 (runAll failOnC paths5) = (5, 1)) :=
  ⟨by decide, by decide,
    claim_C4_amended_counts failOnC paths5 (by decide) (by decide)⟩

/-- Claim C8: an unrecognized sensor tag makes `modify_tif` raise, and the
main loop then records that item's path in the error list and keeps
processing the remaining items (their successes still reach the log). -/
theorem claim_C8_unrecognized_sensor_recorded_failure
    (src : Raster) (tags : String → Option String) (sa pd pa : ℚ) (sat : String)
    (f : String → Except String Unit) (p : String) (rest : List String) (e : String)
    (h1 : tags "satellite" = some sat)
    (h2 : str_startswith sat "sentinel" = false)
    (h3 : str_startswith sat "landsat" = false)
    (h4 : f p = .error e) :
    modify_tif src tags sa pd pa =
      .error ("Satellite \"" ++ sat ++ "\" predictions not implemented yet.") ∧
    (runAll f (p :: rest)).error_paths = p :: rest.filter (errPred f) ∧
    (runAll f (p :: rest)).successes = rest.filter (okPred f) := by
  refine ⟨?_, ?_, ?_⟩
  · unfold modify_tif getTag checkSatellite
    rw [h1]
    simp [Except.bind, h2, h3]
  · have hp : processItem f (⟨[], []⟩ : SessionState) p = ⟨[], [p]⟩ := by
      simp [processItem, h4]
    obtain ⟨hs, he⟩ := foldl_processItem f rest ⟨[], [p]⟩
    unfold runAll
    rw [List.foldl_cons, hp, he]
    simp
  · have hp : processItem f (⟨[], []⟩ : SessionState) p = ⟨[], [p]⟩ := by
      simp [processItem, h4]
    obtain ⟨hs, he⟩ := foldl_processItem f rest ⟨[], [p]⟩
    unfold runAll
    rw [List.foldl_cons, hp, hs]
    simp

/-- Witness for C8 with the unrecognized tag "modis" and a three-item run
whose first item fails. -/
theorem claim_C8_witness :
    modisTags "satellite" = some "modis" ∧
    str_startswith "modis" "sentinel" = false ∧
    str_startswith "modis" "landsat" = false ∧
    failOnC "c.tif" = .error "boom" ∧
    (modify_tif fiveBandRaster modisTags (2.5 : ℚ) 10 30 =
        .error ("Satellite \"" ++ "modis" ++ "\" predictions not implemented yet.") ∧
      (runAll failOnC ("c.tif" :: ["a.tif", "b.tif"])).error_paths
          = "c.tif" :: ["a.tif", "b.tif"].filter (errPred failOnC) ∧
      (runAll failOnC ("c.tif" :: ["a.tif", "b.tif"])).successes
          = ["a.tif", "b.tif"].filter (okPred failOnC)) :=
  ⟨by decide, by decide, by decide, rfl,
    claim_C8_unrecognized_sensor_recorded_failure fiveBandRaster modisTags 2.5 10 30 "modis"
      failOnC "c.tif" ["a.tif", "b.tif"] "boom" (by decide) (by decide) (by decide) rfl⟩

/-- Claim C10: `predict` opens exactly the path `modify_tif` wrote, for every
input filename, because both call the same suffixing function with the same
arguments; and that function inserts the suffix after the first dot-separated
segment, mapping "a.b.tif" to "a_modified.b.tif" inside the output folder. -/
theorem claim_C10_path_handoff (folder input_tif : String) :
    predict_opened_path folder input_tif = modified_tif_path folder input_tif ∧
    add_suffix_to_filename_at_tif_path "tif_out" "a.b.tif" "modified"
      = "tif_out/a_modified.b.tif" :=
  ⟨rfl, by decide⟩
